import Mathlib

/-
Verification development for the particles component of the
rustpress-enterprise theme (assets/js/particles.js).

The component is embedded shallowly:
  - the option bag and its resolution (constructor lines 20-30),
  - particle seeding (Particle constructor, createParticles),
  - the per-tick physics integration (Particle.update),
  - the proximity graph builder (connectParticles),
  - the visibility-gated lifecycle scheduler (start/stop and the
    visibilitychange / IntersectionObserver handlers),
  - the raw field semantics of a system whose canvas lookup failed
    (constructor early return), with undefined-field accesses modelled
    as a thrown TypeError.

Numbers are modelled as real numbers; each call of Math.random is an
explicit real parameter in [0,1).  Host primitives (canvas drawing,
requestAnimationFrame handles) are abstracted to the data the claims
mention: emitted edges carry their computed opacity, scheduled callbacks
carry an identifier.
-/

/-- Resolved option bag (constructor lines 20-30).  Render-only fields
(colors, showParticles, lineWidth) never influence particle state or
emitted edge opacities and are not modelled. -/
structure Options where
  particleCount : Nat
  particleRadius : ℝ
  lineDistance : ℝ
  speed : ℝ
  mouseInteraction : Bool
  mouseRadius : ℝ

/-- Caller-supplied option bag: absent keys are none. -/
structure OptionsIn where
  particleCount : Option Nat := none
  particleRadius : Option ℝ := none
  lineDistance : Option ℝ := none
  speed : Option ℝ := none
  mouseInteraction : Option Bool := none
  mouseRadius : Option ℝ := none

/-- JS expression (v || d) for a possibly absent number: undefined and 0
are falsy; Nat version. -/
def jsOrNat (v : Option Nat) (d : Nat) : Nat :=
  match v with
  | none => d
  | some n => if n = 0 then d else n

/-- JS expression (v || d) for a possibly absent number: undefined and 0
are falsy; real version. -/
noncomputable def jsOrReal (v : Option ℝ) (d : ℝ) : ℝ :=
  match v with
  | none => d
  | some x => if x = 0 then d else x

/-- Effect of the trailing object spread (line 29): a key present in the
caller bag overrides the value computed by the explicit field lines. -/
def spreadGet {α : Type} (v : Option α) (pre : α) : α :=
  v.getD pre

/-- JS expression (v !== false) used for mouseInteraction (line 27):
true unless the key is present and equal to false. -/
def jsNotFalse (v : Option Bool) : Bool :=
  match v with
  | some false => false
  | _ => true

/-- Option resolution of the constructor (lines 20-30): each explicit
field computes a default with || or !==, then the spread of the caller
bag overrides every key the caller supplied. -/
noncomputable def resolveOptions (oin : OptionsIn) : Options :=
  { particleCount := spreadGet oin.particleCount (jsOrNat oin.particleCount 80)
  , particleRadius := spreadGet oin.particleRadius (jsOrReal oin.particleRadius 2)
  , lineDistance := spreadGet oin.lineDistance (jsOrReal oin.lineDistance 150)
  , speed := spreadGet oin.speed (jsOrReal oin.speed 0.5)
  , mouseInteraction := spreadGet oin.mouseInteraction (jsNotFalse oin.mouseInteraction)
  , mouseRadius := spreadGet oin.mouseRadius (jsOrReal oin.mouseRadius 200) }

/-- Pointer state (the mouse record, lines 32-36): x and y are null when
the pointer is absent; mousemove sets both, mouseleave nulls both. -/
structure Mouse where
  x : Option ℝ
  y : Option ℝ
  radius : ℝ

/-- A particle (Particle class fields, lines 168-173). -/
structure Particle where
  x : ℝ
  y : ℝ
  vx : ℝ
  vy : ℝ
  radius : ℝ
  originalRadius : ℝ

instance : Inhabited Particle := ⟨⟨0, 0, 0, 0, 0, 0⟩⟩

/-- Particle constructor (lines 168-173); r1..r5 are the five
Math.random draws, each in [0,1). -/
noncomputable def mkParticle (opts : Options) (width height r1 r2 r3 r4 r5 : ℝ) :
    Particle :=
  let radius := r5 * opts.particleRadius + 1
  { x := r1 * width
  , y := r2 * height
  , vx := (r3 - 0.5) * opts.speed
  , vy := (r4 - 0.5) * opts.speed
  , radius := radius
  , originalRadius := radius }

/-- createParticles (lines 54-59): discard the old collection and push
particleCount fresh particles; rnd i k is the k-th random draw of the
i-th particle. -/
noncomputable def createParticles (opts : Options) (width height : ℝ)
    (rnd : Nat → Nat → ℝ) : List Particle :=
  (List.range opts.particleCount).map fun i =>
    mkParticle opts width height (rnd i 0) (rnd i 1) (rnd i 2) (rnd i 3) (rnd i 4)

/-- atan2 of Math (y first): the argument of the complex number with
real part x and imaginary part y. -/
noncomputable def atan2 (y x : ℝ) : ℝ :=
  Complex.arg ⟨x, y⟩

/-- Pointer-force block of Particle.update (lines 177-192).  The guard
is the JS condition mouse.x !== null && options.mouseInteraction; the
handlers always set x and y together, and null coerces to 0 in JS
arithmetic, so the y read is getD 0. -/
noncomputable def applyMouseForce (opts : Options) (m : Mouse) (p : Particle) :
    Particle :=
  match m.x, opts.mouseInteraction with
  | some mx, true =>
    let dx := p.x - mx
    let dy := p.y - m.y.getD 0
    let distance := Real.sqrt (dx * dx + dy * dy)
    if distance < m.radius then
      let force := (m.radius - distance) / m.radius
      let angle := atan2 dy dx
      { p with
        vx := p.vx + Real.cos angle * force * 0.5
        vy := p.vy + Real.sin angle * force * 0.5
        radius := p.originalRadius * (1 + force) }
    else
      { p with radius := p.originalRadius }
  | _, _ => p

/-- Motion part of Particle.update (lines 194-218): integrate position,
damp, add jitter (j1 j2 are the two Math.random draws), clamp velocity,
reflect at the boundary.  Applied after the pointer-force block. -/
noncomputable def integrateMotion (opts : Options) (width height j1 j2 : ℝ)
    (p : Particle) : Particle :=
  let x1 := p.x + p.vx
  let y1 := p.y + p.vy
  let vx1 := p.vx * 0.99
  let vy1 := p.vy * 0.99
  let vx2 := vx1 + (j1 - 0.5) * 0.1
  let vy2 := vy1 + (j2 - 0.5) * 0.1
  let maxSpeed := opts.speed * 2
  let vx3 := max (-maxSpeed) (min maxSpeed vx2)
  let vy3 := max (-maxSpeed) (min maxSpeed vy2)
  let vx4 := if x1 < 0 ∨ width < x1 then vx3 * (-1) else vx3
  let x2 := if x1 < 0 ∨ width < x1 then max 0 (min width x1) else x1
  let vy4 := if y1 < 0 ∨ height < y1 then vy3 * (-1) else vy3
  let y2 := if y1 < 0 ∨ height < y1 then max 0 (min height y1) else y1
  { x := x2, y := y2, vx := vx4, vy := vy4
  , radius := p.radius, originalRadius := p.originalRadius }

/-- Particle.update (lines 176-218): pointer force, then motion. -/
noncomputable def Particle.update (opts : Options) (m : Mouse)
    (width height j1 j2 : ℝ) (p : Particle) : Particle :=
  integrateMotion opts width height j1 j2 (applyMouseForce opts m p)

/-- connectParticles (lines 140-158): for i from 0 and j from i+1,
emit the pair with its stroked alpha (1 - d / lineDistance) * 0.8 when
the distance is below lineDistance. -/
noncomputable def connectParticles (opts : Options) (ps : List Particle) :
    List (Nat × Nat × ℝ) :=
  (List.range ps.length).flatMap fun i =>
    (List.range' (i + 1) (ps.length - (i + 1))).filterMap fun j =>
      let dx := (ps.getD i default).x - (ps.getD j default).x
      let dy := (ps.getD i default).y - (ps.getD j default).y
      let distance := Real.sqrt (dx * dx + dy * dy)
      if distance < opts.lineDistance then
        some (i, j, (1 - distance / opts.lineDistance) * 0.8)
      else
        none

/-- One tick over the particle list (animate, lines 129-132): update
each particle in order; jit i is the pair of jitter draws of the i-th
particle; the index argument threads the traversal position. -/
noncomputable def tickAux (opts : Options) (m : Mouse) (width height : ℝ)
    (jit : Nat → ℝ × ℝ) (i : Nat) : List Particle → List Particle
  | [] => []
  | p :: rest =>
      p.update opts m width height (jit i).1 (jit i).2 ::
        tickAux opts m width height jit (i + 1) rest

/-- One full update pass of animate over the particle store. -/
noncomputable def tick (opts : Options) (m : Mouse) (width height : ℝ)
    (jit : Nat → ℝ × ℝ) (ps : List Particle) : List Particle :=
  tickAux opts m width height jit 0 ps

/-- n ticks; ms k is the pointer sample read by tick k, jits k i the
jitter draws of particle i in tick k. -/
noncomputable def runTicks (opts : Options) (width height : ℝ)
    (ms : Nat → Mouse) (jits : Nat → Nat → ℝ × ℝ) :
    Nat → List Particle → List Particle
  | 0, ps => ps
  | Nat.succ n, ps =>
      runTicks opts width height (fun k => ms (k + 1)) (fun k => jits (k + 1)) n
        (tick opts (ms 0) width height (jits 0) ps)

/-- Scheduler state: the isRunning flag and the pending
requestAnimationFrame handle (lines 16-17); ticks counts completed
update passes so the production of ticks is observable. -/
structure SchedState where
  isRunning : Bool
  animationId : Option Nat
  ticks : Nat
deriving DecidableEq

/-- One pass of animate (lines 123-138): return at once when not
running, otherwise run the tick body and schedule the next callback
under a fresh handle. -/
def animateStep (s : SchedState) (nid : Nat) : SchedState :=
  if s.isRunning = false then s
  else { s with ticks := s.ticks + 1, animationId := some nid }

/-- start (lines 109-113): no-op when already running, otherwise raise
the flag and call animate. -/
def schedStart (s : SchedState) (nid : Nat) : SchedState :=
  if s.isRunning then s
  else animateStep { s with isRunning := true } nid

/-- stop (lines 115-121): lower the flag; when a callback handle is
pending, cancel it and null the handle. -/
def schedStop (s : SchedState) : SchedState :=
  let s1 : SchedState := { s with isRunning := false }
  if s1.animationId.isSome then { s1 with animationId := none } else s1

/-- External lifecycle signals: a visibilitychange carrying the new
document.hidden value, an IntersectionObserver entry carrying
isIntersecting (threshold 0.1, lines 96-106). -/
inductive SysEvent where
  | visibility (hidden : Bool)
  | intersect (inter : Bool)
deriving DecidableEq

/-- Browser-side truth the two signals report on. -/
structure PageEnv where
  hidden : Bool
  intersecting : Bool
deriving DecidableEq

/-- The environment after the signal that an event reports. -/
def PageEnv.apply (env : PageEnv) (e : SysEvent) : PageEnv :=
  match e with
  | SysEvent.visibility h => { env with hidden := h }
  | SysEvent.intersect i => { env with intersecting := i }

/-- The two handlers of bindEvents (lines 86-107): visibilitychange
stops when hidden and starts otherwise; the observer callback starts on
an intersecting entry and stops otherwise.  Neither handler consults
the other signal. -/
def handleEvent (e : SysEvent) (s : SchedState) (nid : Nat) : SchedState :=
  match e with
  | SysEvent.visibility h => if h then schedStop s else schedStart s nid
  | SysEvent.intersect i => if i then schedStart s nid else schedStop s

/-- A pending scheduled callback firing: nothing happens without a
pending handle; with one, animate runs (and returns at once when the
flag is down). -/
def fireCallback (s : SchedState) (nid : Nat) : SchedState :=
  match s.animationId with
  | none => s
  | some _ => animateStep s nid

/-- Raw field state of a ParticleSystem whose constructor may have
returned early (line 12): none models a field left undefined; for
animationId, some none models an assigned null. -/
structure RawSystem where
  canvasFound : Bool
  ctx : Option Unit
  isRunning : Option Bool
  animationId : Option (Option Nat)
deriving DecidableEq

/-- Outcome of calling a method: a next state, or a thrown TypeError
from a property access on undefined or null. -/
inductive JsOutcome where
  | ok (s : RawSystem)
  | thrownTypeError
deriving DecidableEq

/-- Constructor (lines 10-17) up to the field assignments: when
getElementById returns null the constructor returns at line 12 and
every other field stays undefined; otherwise ctx, particles,
animationId and isRunning are assigned (init then runs, not needed
here). -/
def newParticleSystem (canvasFound : Bool) : RawSystem :=
  if canvasFound then
    { canvasFound := true, ctx := some (), isRunning := some false
    , animationId := some none }
  else
    { canvasFound := false, ctx := none, isRunning := none, animationId := none }

/-- animate (lines 123-126 head): if (!this.isRunning) return, with the
JS truthiness of a possibly undefined flag; then this.ctx.clearRect and
this.canvas.width, which throw when ctx is undefined or canvas null.
The tick body past that point is not needed for the inert handle. -/
def RawSystem.jsAnimate (s : RawSystem) : JsOutcome :=
  if (s.isRunning.getD false) = false then JsOutcome.ok s
  else
    match s.ctx, s.canvasFound with
    | some _, true => JsOutcome.ok s
    | _, _ => JsOutcome.thrownTypeError

/-- start (lines 109-113) on the raw state: the isRunning test reads a
possibly undefined field (undefined is falsy), then the flag is set and
animate called. -/
def RawSystem.jsStart (s : RawSystem) : JsOutcome :=
  if s.isRunning.getD false then JsOutcome.ok s
  else RawSystem.jsAnimate { s with isRunning := some true }

/-- stop (lines 115-121) on the raw state: lower the flag; undefined
and null handles are falsy so nothing is cancelled and nothing throws. -/
def RawSystem.jsStop (s : RawSystem) : JsOutcome :=
  let s1 : RawSystem := { s with isRunning := some false }
  match s1.animationId with
  | some (some _) => JsOutcome.ok { s1 with animationId := some none }
  | _ => JsOutcome.ok s1

/-- resize (lines 48-52) on the raw state: this.canvas.parentElement
throws when the canvas lookup returned null. -/
def RawSystem.jsResize (s : RawSystem) : JsOutcome :=
  if s.canvasFound then JsOutcome.ok s else JsOutcome.thrownTypeError

/-- Fixture: options with pointer interaction on (hero defaults). -/
noncomputable def optsMouse : Options :=
  { particleCount := 3, particleRadius := 2, lineDistance := 150, speed := 0.5
  , mouseInteraction := true, mouseRadius := 200 }

/-- Fixture: options with pointer interaction off (CTA instance). -/
noncomputable def optsNoMouse : Options :=
  { particleCount := 3, particleRadius := 2, lineDistance := 150, speed := 0.5
  , mouseInteraction := false, mouseRadius := 200 }

/-- Fixture: options with lineDistance 40. -/
noncomputable def opts40 : Options :=
  { particleCount := 3, particleRadius := 2, lineDistance := 40, speed := 0.5
  , mouseInteraction := true, mouseRadius := 200 }

/-- Fixture: pointer present at the origin. -/
noncomputable def mouseAt0 : Mouse := { x := some 0, y := some 0, radius := 200 }

/-- Fixture: pointer absent. -/
noncomputable def mouseGone : Mouse := { x := none, y := none, radius := 200 }

/-- Fixture: a particle at rest at (3, 0) with radius 1. -/
noncomputable def pInit : Particle :=
  { x := 3, y := 0, vx := 0, vy := 0, radius := 1, originalRadius := 1 }

/-- Fixture: three collinear particles at x = 0, 50, 140 on the x axis,
giving pairwise distances 50, 90 and 140. -/
noncomputable def ps3 : List Particle :=
  [ { x := 0, y := 0, vx := 0, vy := 0, radius := 1, originalRadius := 1 }
  , { x := 50, y := 0, vx := 0, vy := 0, radius := 1, originalRadius := 1 }
  , { x := 140, y := 0, vx := 0, vy := 0, radius := 1, originalRadius := 1 } ]

/-- sqrt of a product of a nonnegative number with itself. -/
lemma sqrt_eval (a b : ℝ) (hb : 0 ≤ b) (h : a = b * b) : Real.sqrt a = b := by
  rw [h]
  exact Real.sqrt_mul_self hb

/-- The pointer-force block never touches originalRadius. -/
lemma applyMouseForce_originalRadius (opts : Options) (m : Mouse) (p : Particle) :
    (applyMouseForce opts m p).originalRadius = p.originalRadius := by
  unfold applyMouseForce
  cases m.x with
  | none => cases opts.mouseInteraction <;> rfl
  | some mx =>
    cases opts.mouseInteraction with
    | false => rfl
    | true =>
      dsimp only
      split <;> rfl

/-- The motion block copies radius through unchanged. -/
lemma integrateMotion_radius (opts : Options) (w h j1 j2 : ℝ) (p : Particle) :
    (integrateMotion opts w h j1 j2 p).radius = p.radius := rfl

/-- The motion block copies originalRadius through unchanged. -/
lemma integrateMotion_originalRadius (opts : Options) (w h j1 j2 : ℝ)
    (p : Particle) :
    (integrateMotion opts w h j1 j2 p).originalRadius = p.originalRadius := rfl

/-- An integration step never changes originalRadius. -/
lemma update_originalRadius (opts : Options) (m : Mouse) (w h j1 j2 : ℝ)
    (p : Particle) :
    (p.update opts m w h j1 j2).originalRadius = p.originalRadius := by
  unfold Particle.update
  rw [integrateMotion_originalRadius, applyMouseForce_originalRadius]

/-- The radius after a step is the radius the pointer-force block set. -/
lemma update_radius_eq (opts : Options) (m : Mouse) (w h j1 j2 : ℝ)
    (p : Particle) :
    (p.update opts m w h j1 j2).radius = (applyMouseForce opts m p).radius := rfl

/-- With mouseInteraction disabled the pointer-force block is skipped. -/
lemma applyMouseForce_off (opts : Options) (m : Mouse) (p : Particle)
    (hoff : opts.mouseInteraction = false) :
    applyMouseForce opts m p = p := by
  unfold applyMouseForce
  rw [hoff]
  cases m.x <;> rfl

/-- With the pointer absent the pointer-force block is skipped. -/
lemma applyMouseForce_absent (opts : Options) (m : Mouse) (p : Particle)
    (hm : m.x = none) :
    applyMouseForce opts m p = p := by
  unfold applyMouseForce
  rw [hm]

/-- One traversal step preserves the length of the store. -/
lemma tickAux_length (opts : Options) (m : Mouse) (w h : ℝ)
    (jit : Nat → ℝ × ℝ) :
    ∀ (ps : List Particle) (i : Nat),
      (tickAux opts m w h jit i ps).length = ps.length
  | [], _ => rfl
  | _ :: rest, i => by
      simp [tickAux, tickAux_length opts m w h jit rest (i + 1)]

/-- Per-index originalRadius preservation along the traversal. -/
lemma tickAux_getD_originalRadius (opts : Options) (m : Mouse) (w h : ℝ)
    (jit : Nat → ℝ × ℝ) :
    ∀ (ps : List Particle) (i k : Nat),
      ((tickAux opts m w h jit i ps).getD k default).originalRadius =
        ((ps.getD k default).originalRadius)
  | [], _, _ => rfl
  | p :: rest, i, 0 => by
      simp [tickAux, update_originalRadius]
  | p :: rest, i, k + 1 => by
      simp only [tickAux, List.getD_cons_succ]
      exact tickAux_getD_originalRadius opts m w h jit rest (i + 1) k

/-- C1: seeding always yields exactly the configured particleCount
particles; an explicitly configured count survives option resolution
because the trailing spread overrides the || default, and an explicit
count of 0 yields the empty collection. -/
theorem seed_count_eq_configured :
    (∀ (oin : OptionsIn) (w h : ℝ) (rnd : Nat → Nat → ℝ),
      (createParticles (resolveOptions oin) w h rnd).length =
        (resolveOptions oin).particleCount)
    ∧ (∀ (oin : OptionsIn) (c : Nat) (w h : ℝ) (rnd : Nat → Nat → ℝ),
      (createParticles (resolveOptions { oin with particleCount := some c })
          w h rnd).length = c)
    ∧ (∀ (oin : OptionsIn) (w h : ℝ) (rnd : Nat → Nat → ℝ),
      createParticles (resolveOptions { oin with particleCount := some 0 })
          w h rnd = []) := by
  refine ⟨?_, ?_, ?_⟩
  · intro oin w h rnd
    simp [createParticles]
  · intro oin c w h rnd
    simp [createParticles, resolveOptions, spreadGet]
  · intro oin w h rnd
    simp [createParticles, resolveOptions, spreadGet]

/-- C4: on a handle whose canvas lookup failed, start and resize throw
a TypeError (start falls through the undefined isRunning check into
animate, which dereferences the undefined ctx; resize dereferences the
null canvas); stop alone returns without work. -/
theorem inert_handle_operations :
    RawSystem.jsStart (newParticleSystem false) = JsOutcome.thrownTypeError
    ∧ RawSystem.jsResize (newParticleSystem false) = JsOutcome.thrownTypeError
    ∧ RawSystem.jsStop (newParticleSystem false) =
      JsOutcome.ok { canvasFound := false, ctx := none
                   , isRunning := some false, animationId := none } := by
  decide

/-- C2 counterexample: from the Stopped state with the page hidden and
the surface not intersecting, an intersection event alone switches the
scheduler to Running, although the page is hidden, so the transition
does not fire exactly when intersecting and not hidden. -/
theorem lifecycle_conjunction_counterexample :
    (handleEvent (SysEvent.intersect true) ⟨false, none, 0⟩ 1).isRunning = true
    ∧ (PageEnv.apply ⟨true, false⟩ (SysEvent.intersect true)).hidden = true
    ∧ ¬ ((handleEvent (SysEvent.intersect true) ⟨false, none, 0⟩ 1).isRunning = true ↔
        (PageEnv.apply ⟨true, false⟩ (SysEvent.intersect true)).intersecting = true
        ∧ (PageEnv.apply ⟨true, false⟩ (SysEvent.intersect true)).hidden = false) := by
  decide

/-- C2 amended: each signal acts alone.  From Stopped, the scheduler
switches to Running exactly on a page-visible or surface-intersecting
event, and entering Running runs a tick and schedules a callback; a
page-hidden or surface-leaving event leaves the scheduler Stopped with
the pending callback cancelled; without a pending callback no further
tick fires. -/
theorem lifecycle_transitions_amended (s : SchedState) (e : SysEvent) (nid : Nat) :
    (s.isRunning = false →
      ((handleEvent e s nid).isRunning = true ↔
        e = SysEvent.visibility false ∨ e = SysEvent.intersect true))
    ∧ (s.isRunning = false →
        (e = SysEvent.visibility false ∨ e = SysEvent.intersect true) →
        (handleEvent e s nid).ticks = s.ticks + 1
        ∧ (handleEvent e s nid).animationId = some nid)
    ∧ ((e = SysEvent.visibility true ∨ e = SysEvent.intersect false) →
        (handleEvent e s nid).isRunning = false
        ∧ (handleEvent e s nid).animationId = none)
    ∧ (s.animationId = none → fireCallback s nid = s) := by
  obtain ⟨r, aid, t⟩ := s
  refine ⟨?_, ?_, ?_, ?_⟩
  · intro hr
    simp only at hr
    subst hr
    cases e with
    | visibility hb =>
      cases hb <;> cases aid <;>
        simp [handleEvent, schedStart, schedStop, animateStep]
    | intersect ib =>
      cases ib <;> cases aid <;>
        simp [handleEvent, schedStart, schedStop, animateStep]
  · intro hr he
    simp only at hr
    subst hr
    rcases he with he | he <;> subst he <;>
      simp [handleEvent, schedStart, schedStop, animateStep]
  · intro he
    rcases he with he | he <;> subst he <;>
      cases aid <;> cases r <;>
        simp [handleEvent, schedStart, schedStop, animateStep]
  · intro ha
    simp only at ha
    subst ha
    simp [fireCallback]

/-- C2 amended, witness: a stopped scheduler with no pending callback
switches to Running on a page-visible event. -/
theorem lifecycle_transitions_amended_witness :
    (handleEvent (SysEvent.visibility false) ⟨false, none, 0⟩ 1).isRunning = true :=
  ((lifecycle_transitions_amended ⟨false, none, 0⟩ (SysEvent.visibility false) 1).1
      rfl).mpr (Or.inl rfl)

/-- C10: an integration step leaves originalRadius untouched for every
particle; a tick maps the store elementwise, neither adding nor
removing particles and preserving each originalRadius; createParticles
builds the collection wholesale from the configuration and the fresh
random draws alone. -/
theorem tick_frame_effects (opts : Options) :
    (∀ (m : Mouse) (w h j1 j2 : ℝ) (p : Particle),
      (p.update opts m w h j1 j2).originalRadius = p.originalRadius)
    ∧ (∀ (m : Mouse) (w h : ℝ) (jit : Nat → ℝ × ℝ) (ps : List Particle),
      (tick opts m w h jit ps).length = ps.length)
    ∧ (∀ (m : Mouse) (w h : ℝ) (jit : Nat → ℝ × ℝ) (ps : List Particle) (k : Nat),
      ((tick opts m w h jit ps).getD k default).originalRadius =
        ((ps.getD k default).originalRadius))
    ∧ (∀ (w h : ℝ) (rnd : Nat → Nat → ℝ),
      (createParticles opts w h rnd).length = opts.particleCount)
    ∧ (∀ (w h : ℝ) (rnd : Nat → Nat → ℝ) (k : Nat),
      (createParticles opts w h rnd).getD k default =
        if k < opts.particleCount then
          mkParticle opts w h (rnd k 0) (rnd k 1) (rnd k 2) (rnd k 3) (rnd k 4)
        else default) := by
  refine ⟨?_, ?_, ?_, ?_, ?_⟩
  · intro m w h j1 j2 p
    exact update_originalRadius opts m w h j1 j2 p
  · intro m w h jit ps
    exact tickAux_length opts m w h jit ps 0
  · intro m w h jit ps k
    exact tickAux_getD_originalRadius opts m w h jit ps 0 k
  · intro w h rnd
    simp [createParticles]
  · intro w h rnd k
    simp only [createParticles, List.getD_eq_getElem?_getD, List.getElem?_map]
    by_cases hk : k < opts.particleCount
    · rw [List.getElem?_range hk]
      simp [hk]
    · have hnone : (List.range opts.particleCount)[k]? = none := by
        rw [List.getElem?_eq_none]
        simpa using Nat.le_of_not_lt hk
      rw [hnone]
      simp [hk]

/-- With mouseInteraction disabled an integration step does not read
the pointer state at all. -/
lemma update_mouse_irrelevant (opts : Options)
    (hoff : opts.mouseInteraction = false) (m1 m2 : Mouse) (w h j1 j2 : ℝ)
    (p : Particle) :
    p.update opts m1 w h j1 j2 = p.update opts m2 w h j1 j2 := by
  unfold Particle.update
  rw [applyMouseForce_off opts m1 p hoff, applyMouseForce_off opts m2 p hoff]

/-- Pointer irrelevance lifted over one traversal. -/
lemma tickAux_mouse_irrelevant (opts : Options)
    (hoff : opts.mouseInteraction = false) (m1 m2 : Mouse) (w h : ℝ)
    (jit : Nat → ℝ × ℝ) :
    ∀ (ps : List Particle) (i : Nat),
      tickAux opts m1 w h jit i ps = tickAux opts m2 w h jit i ps
  | [], _ => rfl
  | p :: rest, i => by
      simp only [tickAux]
      rw [update_mouse_irrelevant opts hoff m1 m2 w h _ _ p,
        tickAux_mouse_irrelevant opts hoff m1 m2 w h jit rest (i + 1)]

/-- Pointer irrelevance lifted over any number of ticks. -/
lemma runTicks_mouse_irrelevant (opts : Options)
    (hoff : opts.mouseInteraction = false) (w h : ℝ) :
    ∀ (n : Nat) (ms1 ms2 : Nat → Mouse) (jits : Nat → Nat → ℝ × ℝ)
      (ps : List Particle),
      runTicks opts w h ms1 jits n ps = runTicks opts w h ms2 jits n ps
  | 0, _, _, _, _ => rfl
  | n + 1, ms1, ms2, jits, ps => by
      simp only [runTicks]
      rw [show tick opts (ms1 0) w h (jits 0) ps =
          tick opts (ms2 0) w h (jits 0) ps from
        tickAux_mouse_irrelevant opts hoff (ms1 0) (ms2 0) w h (jits 0) ps 0]
      exact runTicks_mouse_irrelevant opts hoff w h n
        (fun k => ms1 (k + 1)) (fun k => ms2 (k + 1)) (fun k => jits (k + 1))
        (tick opts (ms2 0) w h (jits 0) ps)

/-- C9: with mouseInteraction disabled, two runs differing only in the
pointer samples agree on the whole particle state after any number of
ticks, in particular on every velocity and radius. -/
theorem mouse_disabled_noninterference (opts : Options)
    (hoff : opts.mouseInteraction = false) :
    (∀ (m1 m2 : Mouse) (w h j1 j2 : ℝ) (p : Particle),
      p.update opts m1 w h j1 j2 = p.update opts m2 w h j1 j2)
    ∧ (∀ (n : Nat) (ms1 ms2 : Nat → Mouse) (jits : Nat → Nat → ℝ × ℝ)
        (w h : ℝ) (ps : List Particle),
      runTicks opts w h ms1 jits n ps = runTicks opts w h ms2 jits n ps)
    ∧ (∀ (n : Nat) (ms1 ms2 : Nat → Mouse) (jits : Nat → Nat → ℝ × ℝ)
        (w h : ℝ) (ps : List Particle),
      (runTicks opts w h ms1 jits n ps).map (fun p => (p.vx, p.vy, p.radius)) =
        (runTicks opts w h ms2 jits n ps).map
          (fun p => (p.vx, p.vy, p.radius))) := by
  refine ⟨?_, ?_, ?_⟩
  · intro m1 m2 w h j1 j2 p
    exact update_mouse_irrelevant opts hoff m1 m2 w h j1 j2 p
  · intro n ms1 ms2 jits w h ps
    exact runTicks_mouse_irrelevant opts hoff w h n ms1 ms2 jits ps
  · intro n ms1 ms2 jits w h ps
    rw [runTicks_mouse_irrelevant opts hoff w h n ms1 ms2 jits ps]

/-- C9 witness: with the CTA options (interaction off) the pointer
hovering at the origin and the pointer absent produce the same store
after two ticks. -/
theorem mouse_disabled_noninterference_witness :
    runTicks optsNoMouse 100 100 (fun _ => mouseAt0) (fun _ _ => (0.5, 0.5)) 2
        [pInit] =
      runTicks optsNoMouse 100 100 (fun _ => mouseGone) (fun _ _ => (0.5, 0.5)) 2
        [pInit] :=
  (mouse_disabled_noninterference optsNoMouse rfl).2.1 2 _ _ _ 100 100 [pInit]

/-- The velocity clamp lands in the symmetric interval. -/
lemma clamp_bounds (c v : ℝ) (hc : 0 ≤ c) :
    -c ≤ max (-c) (min c v) ∧ max (-c) (min c v) ≤ c :=
  ⟨le_max_left _ _, max_le (by linarith) (min_le_left _ _)⟩

/-- C6: after a complete integration step, for any pointer state and
any jitter draws, the position lies in the surface rectangle and each
velocity component is at most 2 times speed in magnitude (the boundary
reflection only flips the sign of the already clamped component). -/
theorem position_velocity_bounds (opts : Options) (m : Mouse) (w h j1 j2 : ℝ)
    (p : Particle) (hw : 0 ≤ w) (hh : 0 ≤ h) (hs : 0 ≤ opts.speed) :
    0 ≤ (p.update opts m w h j1 j2).x ∧ (p.update opts m w h j1 j2).x ≤ w
    ∧ 0 ≤ (p.update opts m w h j1 j2).y ∧ (p.update opts m w h j1 j2).y ≤ h
    ∧ |(p.update opts m w h j1 j2).vx| ≤ 2 * opts.speed
    ∧ |(p.update opts m w h j1 j2).vy| ≤ 2 * opts.speed := by
  have key : ∀ q : Particle,
      0 ≤ (integrateMotion opts w h j1 j2 q).x
      ∧ (integrateMotion opts w h j1 j2 q).x ≤ w
      ∧ 0 ≤ (integrateMotion opts w h j1 j2 q).y
      ∧ (integrateMotion opts w h j1 j2 q).y ≤ h
      ∧ |(integrateMotion opts w h j1 j2 q).vx| ≤ 2 * opts.speed
      ∧ |(integrateMotion opts w h j1 j2 q).vy| ≤ 2 * opts.speed := by
    intro q
    have hms : 0 ≤ opts.speed * 2 := by linarith
    obtain ⟨hvx1, hvx2⟩ :=
      clamp_bounds (opts.speed * 2) (q.vx * 0.99 + (j1 - 0.5) * 0.1) hms
    obtain ⟨hvy1, hvy2⟩ :=
      clamp_bounds (opts.speed * 2) (q.vy * 0.99 + (j2 - 0.5) * 0.1) hms
    simp only [integrateMotion]
    split_ifs with hcx hcy hcy
    · push_neg at hcx hcy
      refine ⟨le_max_left _ _, max_le hw (min_le_left _ _),
        le_max_left _ _, max_le hh (min_le_left _ _), ?_, ?_⟩
      · rw [mul_neg_one, abs_neg, abs_le]
        exact ⟨by linarith, by linarith⟩
      · rw [mul_neg_one, abs_neg, abs_le]
        exact ⟨by linarith, by linarith⟩
    · push_neg at hcy
      refine ⟨le_max_left _ _, max_le hw (min_le_left _ _),
        hcy.1, hcy.2, ?_, ?_⟩
      · rw [mul_neg_one, abs_neg, abs_le]
        exact ⟨by linarith, by linarith⟩
      · rw [abs_le]
        exact ⟨by linarith, by linarith⟩
    · push_neg at hcx
      refine ⟨hcx.1, hcx.2, le_max_left _ _, max_le hh (min_le_left _ _), ?_, ?_⟩
      · rw [abs_le]
        exact ⟨by linarith, by linarith⟩
      · rw [mul_neg_one, abs_neg, abs_le]
        exact ⟨by linarith, by linarith⟩
    · push_neg at hcx hcy
      refine ⟨hcx.1, hcx.2, hcy.1, hcy.2, ?_, ?_⟩
      · rw [abs_le]
        exact ⟨by linarith, by linarith⟩
      · rw [abs_le]
        exact ⟨by linarith, by linarith⟩
  have hupd : p.update opts m w h j1 j2 =
      integrateMotion opts w h j1 j2 (applyMouseForce opts m p) := rfl
  rw [hupd]
  exact key (applyMouseForce opts m p)

/-- C6 witness: the bounds at a concrete step of the fixture particle
on a 100 by 50 surface with the pointer absent. -/
theorem position_velocity_bounds_witness :
    0 ≤ (pInit.update optsNoMouse mouseGone 100 50 0.5 0.5).x
    ∧ (pInit.update optsNoMouse mouseGone 100 50 0.5 0.5).x ≤ 100
    ∧ 0 ≤ (pInit.update optsNoMouse mouseGone 100 50 0.5 0.5).y
    ∧ (pInit.update optsNoMouse mouseGone 100 50 0.5 0.5).y ≤ 50
    ∧ |(pInit.update optsNoMouse mouseGone 100 50 0.5 0.5).vx| ≤
        2 * optsNoMouse.speed
    ∧ |(pInit.update optsNoMouse mouseGone 100 50 0.5 0.5).vy| ≤
        2 * optsNoMouse.speed :=
  position_velocity_bounds optsNoMouse mouseGone 100 50 0.5 0.5 pInit
    (by norm_num) (by norm_num) (by norm_num [optsNoMouse])

/-- Radius the pointer-force block computes for the fixture particle at
distance 3 from the pointer: inflation by force (200 - 3) / 200. -/
lemma applyMouseForce_pInit_radius :
    (applyMouseForce optsMouse mouseAt0 pInit).radius = 397 / 200 := by
  have h9 : Real.sqrt 9 = 3 := sqrt_eval 9 3 (by norm_num) (by norm_num)
  unfold applyMouseForce optsMouse mouseAt0 pInit
  norm_num [h9]

/-- C5 counterexample: inflate the fixture particle in a step with the
pointer at distance 3, then step once more with the pointer absent; the
radius stays inflated although no pointer proximity holds in that step,
because the restoring branch sits inside the pointer-present guard. -/
theorem radius_persists_counterexample :
    mouseGone.x = none
    ∧ ((pInit.update optsMouse mouseAt0 100 100 0.5 0.5).update optsMouse
          mouseGone 100 100 0.5 0.5).radius ≠
        ((pInit.update optsMouse mouseAt0 100 100 0.5 0.5).update optsMouse
          mouseGone 100 100 0.5 0.5).originalRadius := by
  refine ⟨rfl, ?_⟩
  have h1 : ((pInit.update optsMouse mouseAt0 100 100 0.5 0.5).update optsMouse
      mouseGone 100 100 0.5 0.5).radius =
      (pInit.update optsMouse mouseAt0 100 100 0.5 0.5).radius := by
    rw [update_radius_eq, applyMouseForce_absent optsMouse mouseGone _ rfl]
  have h2 : (pInit.update optsMouse mouseAt0 100 100 0.5 0.5).radius =
      397 / 200 := by
    rw [update_radius_eq]
    exact applyMouseForce_pInit_radius
  have h3 : ((pInit.update optsMouse mouseAt0 100 100 0.5 0.5).update optsMouse
      mouseGone 100 100 0.5 0.5).originalRadius = 1 := by
    rw [update_originalRadius, update_originalRadius]
    rfl
  rw [h1, h2, h3]
  norm_num

/-- C5 amended: after a step the radius is originalRadius times
(1 + force) when interaction is on, the pointer present and the
distance below the pointer radius; it is restored to originalRadius
when interaction is on, the pointer present and the distance not below;
and it is left unchanged from the previous step when interaction is off
or the pointer is absent (so an inflated radius can persist).  The
motion part of the step never touches the radius. -/
theorem radius_cases_amended (opts : Options) (m : Mouse) (p : Particle)
    (mx my d force : ℝ) (hmx : m.x = some mx) (hmy : m.y = some my)
    (hd : d = Real.sqrt ((p.x - mx) * (p.x - mx) + (p.y - my) * (p.y - my)))
    (hf : force = (m.radius - d) / m.radius) :
    (opts.mouseInteraction = true → d < m.radius →
      (applyMouseForce opts m p).radius = p.originalRadius * (1 + force))
    ∧ (opts.mouseInteraction = true → ¬ d < m.radius →
      (applyMouseForce opts m p).radius = p.originalRadius)
    ∧ (opts.mouseInteraction = false → applyMouseForce opts m p = p)
    ∧ (∀ m2 : Mouse, m2.x = none → applyMouseForce opts m2 p = p)
    ∧ (∀ w h j1 j2 : ℝ,
      (p.update opts m w h j1 j2).radius = (applyMouseForce opts m p).radius) := by
  subst hd
  subst hf
  refine ⟨?_, ?_, fun hoff => applyMouseForce_off opts m p hoff,
    fun m2 hm2 => applyMouseForce_absent opts m2 p hm2,
    fun w h j1 j2 => update_radius_eq opts m w h j1 j2 p⟩
  · intro hint hlt
    unfold applyMouseForce
    rw [hmx, hint]
    dsimp only
    rw [hmy]
    simp only [Option.getD_some]
    rw [if_pos hlt]
  · intro hint hge
    unfold applyMouseForce
    rw [hmx, hint]
    dsimp only
    rw [hmy]
    simp only [Option.getD_some]
    rw [if_neg hge]

/-- C5 amended, witness: with interaction off the block is the
identity on the fixture particle even with the pointer present. -/
theorem radius_cases_amended_witness :
    applyMouseForce optsNoMouse mouseAt0 pInit = pInit :=
  (radius_cases_amended optsNoMouse mouseAt0 pInit 0 0
      (Real.sqrt ((pInit.x - 0) * (pInit.x - 0) + (pInit.y - 0) * (pInit.y - 0)))
      ((mouseAt0.radius -
          Real.sqrt ((pInit.x - 0) * (pInit.x - 0) +
            (pInit.y - 0) * (pInit.y - 0))) / mouseAt0.radius)
      rfl rfl rfl rfl).2.2.1 rfl

/-- C8: with interaction on, the pointer present and the distance d
below the pointer radius, the block adds exactly cos(atan2 dy dx) times
force times 0.5 to vx and the sine analogue to vy, with
force = (radius - d) / radius in (0, 1], sets the particle radius to
originalRadius times (1 + force), and for nonzero d the angle factors
are the outward unit radial direction from pointer to particle. -/
theorem pointer_force_exact (opts : Options) (m : Mouse) (p : Particle)
    (mx my d force : ℝ) (hmx : m.x = some mx) (hmy : m.y = some my)
    (hint : opts.mouseInteraction = true)
    (hd : d = Real.sqrt ((p.x - mx) * (p.x - mx) + (p.y - my) * (p.y - my)))
    (hlt : d < m.radius)
    (hf : force = (m.radius - d) / m.radius) :
    (applyMouseForce opts m p).vx =
      p.vx + Real.cos (atan2 (p.y - my) (p.x - mx)) * force * 0.5
    ∧ (applyMouseForce opts m p).vy =
      p.vy + Real.sin (atan2 (p.y - my) (p.x - mx)) * force * 0.5
    ∧ (applyMouseForce opts m p).radius = p.originalRadius * (1 + force)
    ∧ (∀ w h j1 j2 : ℝ,
      (p.update opts m w h j1 j2).radius = p.originalRadius * (1 + force))
    ∧ 0 < force ∧ force ≤ 1
    ∧ (d ≠ 0 →
      Real.cos (atan2 (p.y - my) (p.x - mx)) = (p.x - mx) / d
      ∧ Real.sin (atan2 (p.y - my) (p.x - mx)) = (p.y - my) / d) := by
  subst hd
  subst hf
  have hd0 : (0 : ℝ) ≤
      Real.sqrt ((p.x - mx) * (p.x - mx) + (p.y - my) * (p.y - my)) :=
    Real.sqrt_nonneg _
  have hR : 0 < m.radius := lt_of_le_of_lt hd0 hlt
  have hred : applyMouseForce opts m p =
      { p with
        vx := p.vx + Real.cos (atan2 (p.y - my) (p.x - mx)) *
          ((m.radius -
            Real.sqrt ((p.x - mx) * (p.x - mx) + (p.y - my) * (p.y - my))) /
              m.radius) * 0.5
        vy := p.vy + Real.sin (atan2 (p.y - my) (p.x - mx)) *
          ((m.radius -
            Real.sqrt ((p.x - mx) * (p.x - mx) + (p.y - my) * (p.y - my))) /
              m.radius) * 0.5
        radius := p.originalRadius *
          (1 + (m.radius -
            Real.sqrt ((p.x - mx) * (p.x - mx) + (p.y - my) * (p.y - my))) /
              m.radius) } := by
    unfold applyMouseForce
    rw [hmx, hint]
    dsimp only
    rw [hmy]
    simp only [Option.getD_some]
    rw [if_pos hlt]
  refine ⟨by rw [hred], by rw [hred], by rw [hred], ?_, ?_, ?_, ?_⟩
  · intro w h j1 j2
    rw [update_radius_eq, hred]
  · exact div_pos (by linarith) hR
  · rw [div_le_one hR]
    linarith
  · intro hne
    have hz : (⟨p.x - mx, p.y - my⟩ : ℂ) ≠ 0 := by
      intro h0
      apply hne
      have hre : p.x - mx = 0 := congrArg Complex.re h0
      have him : p.y - my = 0 := congrArg Complex.im h0
      rw [hre, him]
      norm_num
    have habs : Complex.abs ⟨p.x - mx, p.y - my⟩ =
        Real.sqrt ((p.x - mx) * (p.x - mx) + (p.y - my) * (p.y - my)) := by
      rw [Complex.abs_apply, Complex.normSq_mk]
    constructor
    · unfold atan2
      rw [Complex.cos_arg hz, habs]
    · unfold atan2
      rw [Complex.sin_arg, habs]

/-- C8 witness: the radius multiplier and the force positivity at the
fixture particle, at distance 3 from the pointer. -/
theorem pointer_force_exact_witness :
    (applyMouseForce optsMouse mouseAt0 pInit).radius =
      pInit.originalRadius *
        (1 + (mouseAt0.radius -
          Real.sqrt ((pInit.x - 0) * (pInit.x - 0) +
            (pInit.y - 0) * (pInit.y - 0))) / mouseAt0.radius)
    ∧ 0 < (mouseAt0.radius -
        Real.sqrt ((pInit.x - 0) * (pInit.x - 0) +
          (pInit.y - 0) * (pInit.y - 0))) / mouseAt0.radius := by
  have h9 : Real.sqrt ((pInit.x - 0) * (pInit.x - 0) +
      (pInit.y - 0) * (pInit.y - 0)) = 3 := by
    have harg : (pInit.x - 0) * (pInit.x - 0) +
        (pInit.y - 0) * (pInit.y - 0) = 3 * 3 := by
      norm_num [pInit]
    rw [harg]
    exact Real.sqrt_mul_self (by norm_num)
  have H := pointer_force_exact optsMouse mouseAt0 pInit 0 0
    (Real.sqrt ((pInit.x - 0) * (pInit.x - 0) + (pInit.y - 0) * (pInit.y - 0)))
    ((mouseAt0.radius -
      Real.sqrt ((pInit.x - 0) * (pInit.x - 0) +
        (pInit.y - 0) * (pInit.y - 0))) / mouseAt0.radius)
    rfl rfl rfl rfl (by rw [h9]; norm_num [mouseAt0]) rfl
  exact ⟨H.2.2.1, H.2.2.2.2.1⟩

/-- C7: an edge (i, j, op) is emitted exactly for ordered pairs i < j
in range whose Euclidean distance is strictly below lineDistance, with
op the opacity (1 - d / lineDistance) * 0.8, and that opacity is
strictly decreasing in the distance. -/
theorem edge_iff_within_lineDistance (opts : Options) (ps : List Particle)
    (hL : 0 < opts.lineDistance) :
    (∀ (i j : Nat) (op : ℝ), (i, j, op) ∈ connectParticles opts ps ↔
      (i < j ∧ j < ps.length ∧
        Real.sqrt (((ps.getD i default).x - (ps.getD j default).x) *
            ((ps.getD i default).x - (ps.getD j default).x) +
          ((ps.getD i default).y - (ps.getD j default).y) *
            ((ps.getD i default).y - (ps.getD j default).y)) <
          opts.lineDistance ∧
        op = (1 - Real.sqrt (((ps.getD i default).x - (ps.getD j default).x) *
            ((ps.getD i default).x - (ps.getD j default).x) +
          ((ps.getD i default).y - (ps.getD j default).y) *
            ((ps.getD i default).y - (ps.getD j default).y)) /
              opts.lineDistance) * 0.8))
    ∧ (∀ d1 d2 : ℝ, d1 < d2 →
      (1 - d2 / opts.lineDistance) * 0.8 < (1 - d1 / opts.lineDistance) * 0.8) := by
  constructor
  · intro i j op
    unfold connectParticles
    simp only [List.mem_flatMap, List.mem_range, List.mem_filterMap,
      List.mem_range'_1]
    constructor
    · rintro ⟨a, ha, b, hb, heq⟩
      by_cases hc : Real.sqrt (((ps.getD a default).x - (ps.getD b default).x) *
            ((ps.getD a default).x - (ps.getD b default).x) +
          ((ps.getD a default).y - (ps.getD b default).y) *
            ((ps.getD a default).y - (ps.getD b default).y)) <
          opts.lineDistance
      · rw [if_pos hc] at heq
        simp only [Option.some.injEq, Prod.mk.injEq] at heq
        obtain ⟨rfl, rfl, rfl⟩ := heq
        exact ⟨by omega, by omega, hc, rfl⟩
      · rw [if_neg hc] at heq
        exact absurd heq (by simp)
    · rintro ⟨hij, hjlen, hdist, rfl⟩
      refine ⟨i, by omega, j, ⟨by omega, by omega⟩, ?_⟩
      rw [if_pos hdist]
  · intro d1 d2 hlt
    have h1 : d1 * (1 / opts.lineDistance) < d2 * (1 / opts.lineDistance) :=
      mul_lt_mul_of_pos_right hlt (one_div_pos.mpr hL)
    rw [mul_one_div, mul_one_div] at h1
    nlinarith

/-- C7 witness: the characterization applied to the collinear fixture
store under the default lineDistance 150. -/
theorem edge_iff_within_lineDistance_witness :
    (∀ (i j : Nat) (op : ℝ), (i, j, op) ∈ connectParticles optsMouse ps3 ↔
      (i < j ∧ j < ps3.length ∧
        Real.sqrt (((ps3.getD i default).x - (ps3.getD j default).x) *
            ((ps3.getD i default).x - (ps3.getD j default).x) +
          ((ps3.getD i default).y - (ps3.getD j default).y) *
            ((ps3.getD i default).y - (ps3.getD j default).y)) <
          optsMouse.lineDistance ∧
        op = (1 - Real.sqrt (((ps3.getD i default).x - (ps3.getD j default).x) *
            ((ps3.getD i default).x - (ps3.getD j default).x) +
          ((ps3.getD i default).y - (ps3.getD j default).y) *
            ((ps3.getD i default).y - (ps3.getD j default).y)) /
              optsMouse.lineDistance) * 0.8))
    ∧ (∀ d1 d2 : ℝ, d1 < d2 →
      (1 - d2 / optsMouse.lineDistance) * 0.8 <
        (1 - d1 / optsMouse.lineDistance) * 0.8) :=
  edge_iff_within_lineDistance optsMouse ps3 (by norm_num [optsMouse])

/-- Evaluation of the proximity graph of the collinear fixture under
lineDistance 150: all three pairs connect. -/
lemma connect150_eval :
    connectParticles optsMouse ps3 =
      [(0, 1, (1 - 50 / 150) * 0.8), (0, 2, (1 - 140 / 150) * 0.8),
        (1, 2, (1 - 90 / 150) * 0.8)] := by
  have s1 : Real.sqrt 2500 = 50 := sqrt_eval 2500 50 (by norm_num) (by norm_num)
  have s2 : Real.sqrt 19600 = 140 :=
    sqrt_eval 19600 140 (by norm_num) (by norm_num)
  have s3 : Real.sqrt 8100 = 90 := sqrt_eval 8100 90 (by norm_num) (by norm_num)
  simp only [connectParticles, ps3, optsMouse]
  norm_num [List.range_succ, List.range'_succ, List.filterMap_cons,
    List.filterMap_nil, s1, s2, s3]

/-- Evaluation of the proximity graph of the collinear fixture under
lineDistance 40: no pair connects. -/
lemma connect40_eval : connectParticles opts40 ps3 = [] := by
  have s1 : Real.sqrt 2500 = 50 := sqrt_eval 2500 50 (by norm_num) (by norm_num)
  have s2 : Real.sqrt 19600 = 140 :=
    sqrt_eval 19600 140 (by norm_num) (by norm_num)
  have s3 : Real.sqrt 8100 = 90 := sqrt_eval 8100 90 (by norm_num) (by norm_num)
  simp only [connectParticles, ps3, opts40]
  norm_num [List.range_succ, List.range'_succ, List.filterMap_cons,
    List.filterMap_nil, s1, s2, s3]

/-- C3 counterexample: the three collinear particles at distances 50,
90, 140 under lineDistance 150 do produce three edges, but the edge at
distance 50 has opacity (1 - 50 / 150) * 0.8 which is about 0.533, not
about 0.747, and the edge at distance 90 has opacity about 0.320, not
about 0.520: neither rounds to the claimed 3-decimal value. -/
theorem collinear_opacities_counterexample :
    connectParticles optsMouse ps3 =
      [(0, 1, (1 - 50 / 150) * 0.8), (0, 2, (1 - 140 / 150) * 0.8),
        (1, 2, (1 - 90 / 150) * 0.8)]
    ∧ ¬ |(1 - (50 : ℝ) / 150) * 0.8 - 0.747| ≤ 0.0005
    ∧ ¬ |(1 - (90 : ℝ) / 150) * 0.8 - 0.520| ≤ 0.0005 := by
  refine ⟨connect150_eval, ?_, ?_⟩
  · rw [abs_le]
    norm_num
  · rw [abs_le]
    norm_num

/-- C3 amended: with lineDistance 150 the three collinear particles at
pairwise distances 50, 90, 140 yield exactly three edges whose
opacities round to 0.533, 0.320 and 0.053 (the pair at distance 140
matching the originally claimed 0.053); with lineDistance 40 the same
particles yield no edge. -/
theorem collinear_opacities_amended :
    connectParticles optsMouse ps3 =
      [(0, 1, (1 - 50 / 150) * 0.8), (0, 2, (1 - 140 / 150) * 0.8),
        (1, 2, (1 - 90 / 150) * 0.8)]
    ∧ |(1 - (50 : ℝ) / 150) * 0.8 - 0.533| ≤ 0.0005
    ∧ |(1 - (90 : ℝ) / 150) * 0.8 - 0.320| ≤ 0.0005
    ∧ |(1 - (140 : ℝ) / 150) * 0.8 - 0.053| ≤ 0.0005
    ∧ connectParticles opts40 ps3 = [] := by
  refine ⟨connect150_eval, ?_, ?_, ?_, connect40_eval⟩
  · rw [abs_le]
    norm_num
  · rw [abs_le]
    norm_num
  · rw [abs_le]
    norm_num
